import Mathlib

/-!
Verification of the Pharmaceutical Supply Chain Analytics platform
(`src/python/database_connection.py`, class `PharmaceuticalAnalytics`).

The development shallowly embeds the program:

* pandas `DataFrame`s become `DataFrame` (named columns, rows of cells);
* SQL `NULL` (surfaced by pandas as `NaN` in numeric columns) becomes
  `Cell.null`, and Python floats that may be `NaN` become `Option ℚ`
  (`none` = `NaN`);
* the MySQL queries of the fixed catalog become pure functions from an
  explicit relational database state `DB` to `DataFrame`s (`evalQuery`);
* Python code that can raise becomes `Except String` values, so "never
  raises" is "always returns `Except.ok`";
* `datetime.now()` is passed in as an opaque `now : String` argument,
  and numeric-to-string rendering is abstracted by simple total
  formatting functions (no claim inspects the digits of a number).

Primary-key assumptions used when translating joins: `Region.Region_ID`
and `Orders.Order_ID` are primary keys in the external schema, so an
equi-join on them matches at most one row (modelled with `List.find?`).
-/

namespace PharmaAnalytics

/-- A cell of a query-result table: SQL NULL (pandas NaN), a string, or a
numeric value (DECIMAL/INT, modelled exactly as a rational). -/
inductive Cell where
  | null : Cell
  | str : String → Cell
  | num : ℚ → Cell
deriving DecidableEq

/-- A pandas `DataFrame`: named columns and rows of cells, positionally
aligned with the column list. -/
structure DataFrame where
  cols : List String
  rows : List (List Cell)
deriving DecidableEq

/-- `pd.DataFrame()`: the empty frame with no columns and no rows. -/
def emptyDataFrame : DataFrame := ⟨[], []⟩

/-- `DataFrame.empty` in pandas: true when either axis has length 0. -/
def DataFrame.pdEmpty (df : DataFrame) : Bool :=
  df.rows.isEmpty || df.cols.isEmpty

/-- Column lookup (`df[colName]`): the index of the column, raising
`KeyError` when the column does not exist. -/
def DataFrame.colIndex (df : DataFrame) (name : String) : Except String ℕ :=
  match df.cols.findIdx? (fun c => decide (c = name)) with
  | some j => .ok j
  | none => .error ("KeyError: " ++ name)

/-- `df.iloc[i][colName]`: cell access by row position and column name;
`KeyError` for a missing column, `IndexError` for a missing row. -/
def DataFrame.cellAt (df : DataFrame) (i : ℕ) (name : String) : Except String Cell :=
  match df.colIndex name with
  | .error e => .error e
  | .ok j =>
    match (df.rows.get? i).bind (fun r => r.get? j) with
    | some c => .ok c
    | none => .error "IndexError"

/-- `df.head n`: the first `n` rows, same columns. -/
def DataFrame.head (df : DataFrame) (n : ℕ) : DataFrame :=
  ⟨df.cols, df.rows.take n⟩

/-! ## Data Access Gateway (`execute_query`, lines 66-86)

The gateway holds the `connected` flag and the behaviour of the
underlying driver: `runSql` is the outcome of `pd.read_sql` for a given
query string and parameter tuple — either a result frame or a raised
driver error. -/

structure Gateway where
  connected : Bool
  runSql : String → List String → Except String DataFrame

/-- `PharmaceuticalAnalytics.execute_query`: if not connected, return
`pd.DataFrame()`; otherwise run the query, and on any exception return
`pd.DataFrame()`. The function is total: no exception escapes. -/
def execute_query (g : Gateway) (query : String) (params : List String) : DataFrame :=
  if g.connected = false then emptyDataFrame
  else
    match g.runSql query params with
    | .ok df => df
    | .error _ => emptyDataFrame

/-! ## Relational database state

The external MySQL schema, restricted to the tables and columns the
fixed query catalog reads. `Order.repId` is `Orders.Representative_ID`
(nullable); `SalesRep.customers` are the `Interaction.Customer_ID`
values of the representative's interaction rows; `Customer.orderIds`
are the `Order_Placed.Order_ID` values of the customer. -/

structure Order where
  oid : ℕ
  repId : Option ℕ
  status : String
  totalCost : ℚ
  date : ℚ
deriving DecidableEq

structure SalesRep where
  rid : ℕ
  name : String
  regionId : ℕ
  rating : ℚ
  customers : List ℕ
deriving DecidableEq

structure Region where
  regId : ℕ
  name : String
deriving DecidableEq

structure Product where
  pid : ℕ
  name : String
  category : String
  price : ℚ
deriving DecidableEq

structure InventoryRec where
  pid : ℕ
  quantity : ℚ
  reorderLevel : ℚ
  location : String
deriving DecidableEq

structure Customer where
  cid : ℕ
  isDoctor : Bool
  isHospital : Bool
  isPharmacy : Bool
  orderIds : List ℕ
deriving DecidableEq

structure Involvement where
  pid : ℕ
  orderId : ℕ
  quantityOrdered : ℚ
  lineTotal : ℚ
deriving DecidableEq

structure DB where
  orders : List Order
  reps : List SalesRep
  regions : List Region
  products : List Product
  inventory : List InventoryRec
  customers : List Customer
  involvements : List Involvement
  today : ℚ
deriving DecidableEq

/-- The database with all tables empty. -/
def emptyDB : DB := ⟨[], [], [], [], [], [], [], 0⟩

/-! ## SQL aggregate helpers -/

/-- SQL `SUM`: `NULL` over the empty set, the sum otherwise. -/
def sumAgg (l : List ℚ) : Option ℚ :=
  if l.isEmpty then none else some l.sum

/-- SQL `MAX`: `NULL` over the empty set, the maximum otherwise. -/
def maxAgg : List ℚ → Option ℚ
  | [] => none
  | q :: l =>
    match maxAgg l with
    | none => some q
    | some m => some (max q m)

/-- Render a nullable numeric aggregate as a result cell. -/
def optNumCell : Option ℚ → Cell
  | none => Cell.null
  | some q => Cell.num q

/-- `a ≥ b` on nullable numbers with `NULL` smallest: the comparison
behind MySQL `ORDER BY x DESC`, which places `NULL`s last. -/
def optGeB : Option ℚ → Option ℚ → Bool
  | some x, some y => decide (y ≤ x)
  | some _, none => true
  | none, none => true
  | none, some _ => false

/-! ## Inventory status classification (`analyze_inventory_status`, lines 157-197) -/

/-- The `Stock_Status` CASE expression (lines 173-179): first matching
branch wins; `0.3` and `0.6` are the exact decimals `3/10` and `6/10`. -/
def stock_status (quantity reorderLevel : ℚ) : String :=
  if quantity = 0 then "OUT_OF_STOCK"
  else if quantity ≤ reorderLevel * (3/10) then "CRITICAL"
  else if quantity ≤ reorderLevel * (6/10) then "LOW"
  else if quantity ≤ reorderLevel then "MODERATE"
  else "ADEQUATE"

/-- The `Action_Required` CASE expression (lines 180-184). -/
def action_required (quantity reorderLevel : ℚ) : String :=
  if quantity ≤ reorderLevel then "REORDER_NOW"
  else if quantity ≤ reorderLevel * (3/2) then "MONITOR"
  else "SUFFICIENT"

/-- The ORDER BY severity rank (lines 188-194): same branch structure as
`stock_status`, numbered 1 (worst) to 5. -/
def severityRank (quantity reorderLevel : ℚ) : ℕ :=
  if quantity = 0 then 1
  else if quantity ≤ reorderLevel * (3/10) then 2
  else if quantity ≤ reorderLevel * (6/10) then 3
  else if quantity ≤ reorderLevel then 4
  else 5

/-- `FROM Product p JOIN Inventory i ON p.Product_ID = i.Product_ID`
(inner join): all matching pairs. -/
def joinInventory (db : DB) : List (Product × InventoryRec) :=
  db.products.flatMap (fun p =>
    (db.inventory.filter (fun i => decide (i.pid = p.pid))).map (fun i => (p, i)))

/-- One result row of `analyze_inventory_status`, in column order. -/
def invRowCells (pi : Product × InventoryRec) : List Cell :=
  [.str pi.1.name, .str pi.1.category, .num pi.1.price,
   .num pi.2.quantity, .num pi.2.reorderLevel,
   .num (pi.1.price * pi.2.quantity), .str pi.2.location,
   .str (stock_status pi.2.quantity pi.2.reorderLevel),
   .str (action_required pi.2.quantity pi.2.reorderLevel)]

/-- `ORDER BY severity-rank ASC, Total_Value DESC` as a Boolean "comes
not later than" test on joined rows. -/
def invLeB (a b : Product × InventoryRec) : Bool :=
  let ra := severityRank a.2.quantity a.2.reorderLevel
  let rb := severityRank b.2.quantity b.2.reorderLevel
  decide (ra < rb) ||
    (decide (ra = rb) && decide (b.1.price * b.2.quantity ≤ a.1.price * a.2.quantity))

def inventorySorted (db : DB) : List (Product × InventoryRec) :=
  List.insertionSort (fun a b => invLeB a b = true) (joinInventory db)

def inventoryCols : List String :=
  ["Product_Name", "Category", "Price", "Current_Stock", "Reorder_Level",
   "Total_Value", "Location", "Stock_Status", "Action_Required"]

/-! ## Sales performance (`analyze_sales_performance`, lines 129-155)

`FROM Sales_Representative sr JOIN Region r LEFT JOIN Orders o
LEFT JOIN Interaction i WHERE (o.Order_Status != 'Cancelled' OR
o.Order_Status IS NULL) GROUP BY rep ORDER BY Total_Sales DESC`.

Join/filter consequences modelled exactly:
* a representative whose `Region_ID` has no `Region` row is dropped
  (inner join);
* a representative all of whose orders are cancelled contributes no
  surviving row, so the representative vanishes from the result;
* a representative with no orders at all survives through the left
  join with a NULL order row (`Total_Sales` NULL);
* the left join with `Interaction` multiplies each order row by the
  number of interaction rows (at least one row survives when there are
  none), scaling `SUM(o.Total_cost)` by that factor while the
  `COUNT(DISTINCT …)` aggregates and `AVG` are unaffected. -/

structure SalesGroup where
  name : String
  regionName : String
  rating : ℚ
  totalOrders : ℕ
  totalSales : Option ℚ
  avgOrder : Option ℚ
  uniqueCustomers : ℕ
  lastDate : Option ℚ
  daysSince : Option ℚ
deriving DecidableEq

/-- The orders attributed to a representative. -/
def repOrders (db : DB) (r : SalesRep) : List Order :=
  db.orders.filter (fun o => decide (o.repId = some r.rid))

/-- The representative's orders surviving the `!= 'Cancelled'` filter. -/
def repKept (db : DB) (r : SalesRep) : List Order :=
  (repOrders db r).filter (fun o => decide (o.status ≠ "Cancelled"))

/-- Row multiplicity contributed by the `Interaction` left join. -/
def interMult (r : SalesRep) : ℕ := max 1 r.customers.length

/-- The grouped result row for one representative, `none` when the
representative vanishes (missing region, or all orders cancelled). -/
def salesGroup (db : DB) (r : SalesRep) : Option SalesGroup :=
  match db.regions.find? (fun g => decide (g.regId = r.regionId)) with
  | none => none
  | some reg =>
    let mine := repOrders db r
    let kept := repKept db r
    if mine.length ≠ 0 ∧ kept.length = 0 then none
    else
      let costs := kept.map (fun o => o.totalCost)
      let lastDate := maxAgg (kept.map (fun o => o.date))
      some ⟨r.name, reg.name, r.rating,
        (kept.map (fun o => o.oid)).dedup.length,
        (sumAgg costs).map (fun s => (interMult r : ℚ) * s),
        (if kept.length = 0 then none else some (costs.sum / (kept.length : ℚ))),
        r.customers.dedup.length,
        lastDate,
        lastDate.map (fun d => db.today - d)⟩

def salesGroups (db : DB) : List SalesGroup :=
  db.reps.filterMap (salesGroup db)

def salesSorted (db : DB) : List SalesGroup :=
  List.insertionSort (fun a b => optGeB a.totalSales b.totalSales = true) (salesGroups db)

def salesCols : List String :=
  ["Representative_Name", "Region_Name", "Performance_Rating", "Total_Orders",
   "Total_Sales", "Average_Order_Value", "Unique_Customers", "Last_Order_Date",
   "Days_Since_Last_Order"]

def salesRowCells (g : SalesGroup) : List Cell :=
  [.str g.name, .str g.regionName, .num g.rating, .num g.totalOrders,
   optNumCell g.totalSales, optNumCell g.avgOrder, .num g.uniqueCustomers,
   optNumCell g.lastDate, optNumCell g.daysSince]

/-! ## Regional performance (`analyze_regional_performance`, lines 199-225)

`FROM Region r LEFT JOIN Sales_Representative sr LEFT JOIN Orders o
LEFT JOIN Interaction i WHERE (not cancelled OR order NULL) GROUP BY
region HAVING Total_Representatives > 0 ORDER BY Total_Revenue DESC`.
A representative contributes surviving rows exactly when they have no
orders at all (NULL order row) or at least one non-cancelled order; a
region whose every representative vanished is dropped (either by the
`HAVING` clause when it had no representatives, or because no row of
the group survived the `WHERE` filter). -/

structure RegionGroup where
  name : String
  repCount : ℕ
  totalOrders : ℕ
  totalRevenue : Option ℚ
  avgOrder : Option ℚ
  uniqueCustomers : ℕ
  revenuePerRep : Option ℚ
  ordersPerRep : ℚ
deriving DecidableEq

/-- The region's representatives that contribute at least one surviving
row to the grouped join. -/
def regionSurvivors (db : DB) (reg : Region) : List SalesRep :=
  (db.reps.filter (fun r => decide (r.regionId = reg.regId))).filter
    (fun r => decide ((repOrders db r).length = 0 ∨ (repKept db r).length ≠ 0))

def regionGroup (db : DB) (reg : Region) : Option RegionGroup :=
  let survivors := regionSurvivors db reg
  if survivors.length = 0 then none
  else
    let repCount := (survivors.map (fun r => r.rid)).dedup.length
    let nKept := (survivors.map (fun r => interMult r * (repKept db r).length)).sum
    let sumCosts :=
      (survivors.map (fun r =>
        (interMult r : ℚ) * ((repKept db r).map (fun o => o.totalCost)).sum)).sum
    let revenue := if nKept = 0 then none else some sumCosts
    let totalOrders :=
      ((survivors.flatMap (fun r => (repKept db r).map (fun o => o.oid))).dedup).length
    some ⟨reg.name, repCount, totalOrders, revenue,
      revenue.map (fun s => s / (nKept : ℚ)),
      ((survivors.flatMap (fun r => r.customers)).dedup).length,
      revenue.map (fun s => s / (repCount : ℚ)),
      (totalOrders : ℚ) / (repCount : ℚ)⟩

def regionalGroups (db : DB) : List RegionGroup :=
  db.regions.filterMap (regionGroup db)

def regionalSorted (db : DB) : List RegionGroup :=
  List.insertionSort (fun a b => optGeB a.totalRevenue b.totalRevenue = true) (regionalGroups db)

def regionalCols : List String :=
  ["Region_Name", "Total_Representatives", "Total_Orders", "Total_Revenue",
   "Average_Order_Value", "Unique_Customers", "Revenue_Per_Rep", "Orders_Per_Rep"]

def regionRowCells (g : RegionGroup) : List Cell :=
  [.str g.name, .num g.repCount, .num g.totalOrders, optNumCell g.totalRevenue,
   optNumCell g.avgOrder, .num g.uniqueCustomers, optNumCell g.revenuePerRep,
   .num g.ordersPerRep]

/-! ## Customer segments (`analyze_customer_segments`, lines 227-256) -/

/-- The classification CASE: Doctor beats Hospital beats Pharmacy beats
Other (first match wins). -/
def customerType (c : Customer) : String :=
  if c.isDoctor then "Doctor"
  else if c.isHospital then "Hospital"
  else if c.isPharmacy then "Pharmacy"
  else "Other"

structure SegmentGroup where
  ctype : String
  customerCount : ℕ
  totalOrders : ℕ
  totalRevenue : Option ℚ
  avgOrder : Option ℚ
  revenuePerCustomer : Option ℚ
deriving DecidableEq

/-- Costs of the customer's orders surviving
`LEFT JOIN Orders o ON op.Order_ID = o.Order_ID AND o.Order_Status !=
'Cancelled'` (`Order_ID` primary key: at most one match per placed
order). -/
def matchedCosts (db : DB) (c : Customer) : List ℚ :=
  c.orderIds.filterMap (fun oid =>
    (db.orders.find? (fun o => decide (o.oid = oid ∧ o.status ≠ "Cancelled"))).map
      (fun o => o.totalCost))

/-- The grouped row for one customer type; a type with no customers
produces no group. `COUNT(DISTINCT op.Order_ID)` counts placed orders
whether or not the order join survived the cancellation test. -/
def segmentGroup (db : DB) (t : String) : Option SegmentGroup :=
  let group := db.customers.filter (fun c => decide (customerType c = t))
  if group.length = 0 then none
  else
    let costs := group.flatMap (matchedCosts db)
    let revenue := sumAgg costs
    some ⟨t, (group.map (fun c => c.cid)).dedup.length,
      ((group.flatMap (fun c => c.orderIds)).dedup).length,
      revenue,
      revenue.map (fun s => s / (costs.length : ℚ)),
      revenue.map (fun s => s / (((group.map (fun c => c.cid)).dedup.length : ℕ) : ℚ))⟩

def segmentGroups (db : DB) : List SegmentGroup :=
  ["Doctor", "Hospital", "Pharmacy", "Other"].filterMap (segmentGroup db)

def segmentsSorted (db : DB) : List SegmentGroup :=
  List.insertionSort (fun a b => optGeB a.totalRevenue b.totalRevenue = true) (segmentGroups db)

def segmentCols : List String :=
  ["Customer_Type", "Customer_Count", "Total_Orders", "Total_Revenue",
   "Average_Order_Value", "Revenue_Per_Customer"]

def segmentRowCells (g : SegmentGroup) : List Cell :=
  [.str g.ctype, .num g.customerCount, .num g.totalOrders,
   optNumCell g.totalRevenue, optNumCell g.avgOrder, optNumCell g.revenuePerCustomer]

/-! ## Product performance (`analyze_product_performance`, lines 258-287)

`FROM Product p LEFT JOIN Involvement inv LEFT JOIN Orders o (join
condition only; no selected column uses o) LEFT JOIN Inventory i GROUP
BY p.Product_ID, …, i.Quantity ORDER BY Total_Revenue DESC`. Because
`i.Quantity` is part of the group key, a product splits into one group
per distinct matching inventory quantity (or a single group with NULL
stock when it has no inventory row); each group's involvement rows are
crossed with the inventory rows of that quantity, scaling the `SUM`
aggregates by that multiplicity while `COUNT(DISTINCT …)` and `AVG`
are unaffected. -/

structure ProductGroup where
  name : String
  category : String
  price : ℚ
  timesOrdered : ℕ
  totalQty : Option ℚ
  totalRevenue : Option ℚ
  avgQty : Option ℚ
  stock : Option ℚ
  turnover : ℚ
deriving DecidableEq

/-- MySQL `ROUND(x, 2)` (half away from zero; our uses are
non-negative, where it agrees with rounding half up). -/
def round2 (q : ℚ) : ℚ := ((round (q * 100) : ℤ) : ℚ) / 100

def productGroupRows (db : DB) (p : Product) : List ProductGroup :=
  let invs := db.involvements.filter (fun v => decide (v.pid = p.pid))
  let timesOrdered := (invs.map (fun v => v.orderId)).dedup.length
  let totalQty := sumAgg (invs.map (fun v => v.quantityOrdered))
  let totalRev := sumAgg (invs.map (fun v => v.lineTotal))
  let avgQty := totalQty.map (fun s => s / (invs.length : ℚ))
  let qtys := ((db.inventory.filter (fun i => decide (i.pid = p.pid))).map
    (fun i => i.quantity)).dedup
  if qtys.isEmpty then
    [⟨p.name, p.category, p.price, timesOrdered, totalQty, totalRev, avgQty, none, 0⟩]
  else
    qtys.map (fun q =>
      let m := (db.inventory.filter (fun i => decide (i.pid = p.pid ∧ i.quantity = q))).length
      let tq := totalQty.map (fun s => (m : ℚ) * s)
      ⟨p.name, p.category, p.price, timesOrdered, tq,
        totalRev.map (fun s => (m : ℚ) * s), avgQty, some q,
        (match tq with
         | some s => if 0 < q ∧ 0 < s then round2 (s / q) else 0
         | none => 0)⟩)

def productGroups (db : DB) : List ProductGroup :=
  db.products.flatMap (productGroupRows db)

def productSorted (db : DB) : List ProductGroup :=
  List.insertionSort (fun a b => optGeB a.totalRevenue b.totalRevenue = true) (productGroups db)

def productCols : List String :=
  ["Product_Name", "Category", "Unit_Price", "Times_Ordered", "Total_Quantity_Sold",
   "Total_Revenue", "Avg_Quantity_Per_Order", "Current_Stock", "Turnover_Ratio"]

def productRowCells (g : ProductGroup) : List Cell :=
  [.str g.name, .str g.category, .num g.price, .num g.timesOrdered,
   optNumCell g.totalQty, optNumCell g.totalRevenue, optNumCell g.avgQty,
   optNumCell g.stock, .num g.turnover]

/-! ## The fixed query catalog -/

/-- The queries of the class, one per `execute_query` call site. -/
inductive QueryId where
  | revenue
  | ordersCount
  | activeReps
  | inventoryValue
  | salesPerf
  | inventoryStatus
  | regionalPerf
  | customerSegments
  | productPerf
deriving DecidableEq

/-- Orders surviving `WHERE Order_Status != 'Cancelled'`. -/
def nonCancelled (db : DB) : List Order :=
  db.orders.filter (fun o => decide (o.status ≠ "Cancelled"))

/-- The result a successful `pd.read_sql` produces for each catalog
query against database state `db` (columns exactly as named in the
SELECT list; scalar aggregates always produce one row). -/
def evalQuery (db : DB) : QueryId → DataFrame
  | .revenue =>
    ⟨["total_revenue"], [[optNumCell (sumAgg ((nonCancelled db).map (fun o => o.totalCost)))]]⟩
  | .ordersCount =>
    ⟨["total_orders"], [[.num ((nonCancelled db).length : ℚ)]]⟩
  | .activeReps =>
    ⟨["active_reps"], [[.num (((db.reps.map (fun r => r.rid)).dedup.length : ℕ) : ℚ)]]⟩
  | .inventoryValue =>
    ⟨["inventory_value"],
     [[optNumCell (sumAgg ((joinInventory db).map (fun pi => pi.1.price * pi.2.quantity)))]]⟩
  | .salesPerf => ⟨salesCols, (salesSorted db).map salesRowCells⟩
  | .inventoryStatus => ⟨inventoryCols, (inventorySorted db).map invRowCells⟩
  | .regionalPerf => ⟨regionalCols, (regionalSorted db).map regionRowCells⟩
  | .customerSegments => ⟨segmentCols, (segmentsSorted db).map segmentRowCells⟩
  | .productPerf => ⟨productCols, (productSorted db).map productRowCells⟩

/-- A session of the analytics class over database state `db`:
`connected` is `self.connected`, and `queryFails q` says whether
`pd.read_sql` raises for catalog query `q` (driver error, etc.). -/
structure Session where
  connected : Bool
  db : DB
  queryFails : QueryId → Bool

/-- `execute_query` specialised to the fixed catalog: the gateway
behaviour of lines 77-86 with `runSql` instantiated by `evalQuery` and
the failure oracle. -/
def runCatalogQuery (s : Session) (q : QueryId) : DataFrame :=
  if s.connected = false then emptyDataFrame
  else if s.queryFails q then emptyDataFrame
  else evalQuery s.db q

/-- A connected session with no query failures over `db`: the state in
which every catalog query executes normally. -/
def goodSession (db : DB) : Session := ⟨true, db, fun _ => false⟩

def analyze_sales_performance (s : Session) : DataFrame := runCatalogQuery s .salesPerf

def analyze_inventory_status (s : Session) : DataFrame := runCatalogQuery s .inventoryStatus

def analyze_regional_performance (s : Session) : DataFrame := runCatalogQuery s .regionalPerf

def analyze_customer_segments (s : Session) : DataFrame := runCatalogQuery s .customerSegments

def analyze_product_performance (s : Session) : DataFrame := runCatalogQuery s .productPerf

/-! ## Executive summary (`get_executive_summary`, lines 88-127) -/

/-- Python `float(cell)` on a value read from a numeric result column:
pandas surfaces SQL NULL as NaN (so `float` succeeds, giving NaN,
modelled `none`); a genuine string would raise `ValueError`. -/
def pyFloatCell : Cell → Except String (Option ℚ)
  | .null => .ok none
  | .num q => .ok (some q)
  | .str _ => .error "ValueError"

/-- Python `int(cell)`: truncation toward zero on a number (all uses
are exact counts); NaN or a string raises. -/
def pyIntCell : Cell → Except String ℤ
  | .null => .error "ValueError"
  | .num q => .ok (q.num.tdiv (q.den : ℤ))
  | .str _ => .error "ValueError"

/-- The summary dictionary: exactly the five keys the method stores. -/
structure Summary where
  total_revenue : Option ℚ
  total_orders : ℤ
  active_representatives : ℤ
  inventory_value : Option ℚ
  average_order_value : Option ℚ
deriving DecidableEq

/-- One scalar-aggregate step of the summary:
`float(result.iloc[0][col]) if not result.empty else 0`. -/
def scalarOf (s : Session) (q : QueryId) (col : String) : Except String (Option ℚ) :=
  let df := runCatalogQuery s q
  if df.pdEmpty then .ok (some 0)
  else
    match df.cellAt 0 col with
    | .error e => .error e
    | .ok c => pyFloatCell c

/-- `int(result.iloc[0][col]) if not result.empty else 0`. -/
def intScalarOf (s : Session) (q : QueryId) (col : String) : Except String ℤ :=
  let df := runCatalogQuery s q
  if df.pdEmpty then .ok 0
  else
    match df.cellAt 0 col with
    | .error e => .error e
    | .ok c => pyIntCell c

/-- `PharmaceuticalAnalytics.get_executive_summary`: the four scalar
queries followed by the guarded average (lines 122-125). The division
happens only under `total_orders > 0`; `NaN / n = NaN` is `Option.map`. -/
def get_executive_summary (s : Session) : Except String Summary := do
  let total_revenue ← scalarOf s .revenue "total_revenue"
  let total_orders ← intScalarOf s .ordersCount "total_orders"
  let active_representatives ← intScalarOf s .activeReps "active_reps"
  let inventory_value ← scalarOf s .inventoryValue "inventory_value"
  let average_order_value :=
    if 0 < total_orders then total_revenue.map (fun r => r / (total_orders : ℚ))
    else some 0
  pure ⟨total_revenue, total_orders, active_representatives, inventory_value,
    average_order_value⟩

/-! ## Report formatting (`generate_detailed_report`, lines 435-489)

The report is modelled as its list of lines (the Python joins them
with a newline at the end). Numeral rendering (`:,.2f` etc.) is
abstracted by total formatting functions: no claim inspects digits,
only whole lines such as section headers. -/

/-- Abstract decimal rendering of an exact rational. -/
def fmtQ (q : ℚ) : String := toString q.num ++ "/" ++ toString q.den

/-- `f-string` formatting with `:,.2f` of a float that may be NaN. -/
def fmtMoney : Option ℚ → String
  | none => "nan"
  | some q => fmtQ q

/-- `:,.2f` formatting of a result cell: NaN prints `nan`, a string
operand would raise `ValueError` (never reached on catalog results). -/
def fmtCellMoney : Cell → Except String String
  | .null => .ok "nan"
  | .num q => .ok (fmtQ q)
  | .str _ => .error "ValueError"

/-- Plain `str()` / f-string interpolation of a cell. -/
def fmtCellPlain : Cell → String
  | .null => "nan"
  | .num q => fmtQ q
  | .str t => t

def sep80 : String := String.mk (List.replicate 80 '=')

def sep50 : String := String.mk (List.replicate 50 '-')

/-- Row access by column name inside an `iterrows` loop. -/
def rowCell (df : DataFrame) (r : List Cell) (name : String) : Except String Cell :=
  match df.colIndex name with
  | .error e => .error e
  | .ok j =>
    match r.get? j with
    | some c => .ok c
    | none => .error "IndexError"

/-- The fail-on-first-error traversal behind a Python `for` loop that
appends one line per row. -/
def mapLines {α : Type} (f : α → Except String String) : List α → Except String (List String)
  | [] => .ok []
  | a :: l =>
    match f a with
    | .error e => .error e
    | .ok b =>
      match mapLines f l with
      | .error e => .error e
      | .ok bs => .ok (b :: bs)

def headerLines (now : String) : List String :=
  [sep80, "PHARMACEUTICAL SUPPLY CHAIN ANALYTICS REPORT", sep80,
   "Generated: " ++ now, ""]

def summaryLines (sm : Summary) : List String :=
  ["EXECUTIVE SUMMARY", sep50,
   "Total Revenue: $" ++ fmtMoney sm.total_revenue,
   "Total Orders: " ++ toString sm.total_orders,
   "Active Representatives: " ++ toString sm.active_representatives,
   "Average Order Value: $" ++ fmtMoney sm.average_order_value,
   "Total Inventory Value: $" ++ fmtMoney sm.inventory_value,
   ""]

def salesLine (n reg m : String) : String := n ++ " (" ++ reg ++ "): $" ++ m

/-- Line 466: `f"{row['Representative_Name']} ({row['Region_Name']}):
${row['Total_Sales']:,.2f}"`. -/
def salesRowLine (df : DataFrame) (r : List Cell) : Except String String := do
  let n ← rowCell df r "Representative_Name"
  let reg ← rowCell df r "Region_Name"
  let ts ← rowCell df r "Total_Sales"
  let m ← fmtCellMoney ts
  .ok (salesLine (fmtCellPlain n) (fmtCellPlain reg) m)

/-- Lines 461-467: top-5 sales performers, emitted only when the sales
table is non-empty. -/
def salesSection (s : Session) : Except String (List String) :=
  let df := analyze_sales_performance s
  if df.pdEmpty then .ok []
  else
    match mapLines (salesRowLine df) (df.rows.take 5) with
    | .error e => .error e
    | .ok body => .ok (["TOP SALES PERFORMERS", sep50] ++ body ++ [""])

def critLine (n st ss : String) : String :=
  n ++ ": " ++ st ++ " units (" ++ ss ++ ")"

/-- Line 471: `inventory_data[inventory_data['Stock_Status'].isin(
['CRITICAL', 'OUT_OF_STOCK'])]`. The column is selected **before** any
emptiness check, so a column-less empty frame raises `KeyError`. -/
def criticalRows (s : Session) : Except String (List (List Cell)) :=
  let df := analyze_inventory_status s
  match df.colIndex "Stock_Status" with
  | .error e => .error e
  | .ok j =>
    .ok (df.rows.filter (fun r =>
      decide (r.get? j = some (Cell.str "CRITICAL") ∨
              r.get? j = some (Cell.str "OUT_OF_STOCK"))))

/-- Line 476: `f"{row['Product_Name']}: {row['Current_Stock']} units
({row['Stock_Status']})"`. -/
def critRowLine (df : DataFrame) (r : List Cell) : Except String String := do
  let n ← rowCell df r "Product_Name"
  let st ← rowCell df r "Current_Stock"
  let ss ← rowCell df r "Stock_Status"
  .ok (critLine (fmtCellPlain n) (fmtCellPlain st) (fmtCellPlain ss))

/-- Lines 470-477: the critical inventory alerts section. -/
def criticalSection (s : Session) : Except String (List String) := do
  let df := analyze_inventory_status s
  let crit ← criticalRows s
  if crit.isEmpty then .ok []
  else do
    let body ← mapLines (critRowLine df) crit
    .ok (["CRITICAL INVENTORY ALERTS", sep50] ++ body ++ [""])

def regionLine (n rev orders : String) : String :=
  n ++ ": $" ++ rev ++ " revenue, " ++ orders ++ " orders"

/-- Line 485: `f"{row['Region_Name']}: ${row['Total_Revenue']:,.2f}
revenue, {row['Total_Orders']} orders"`. -/
def regionRowLine (df : DataFrame) (r : List Cell) : Except String String := do
  let n ← rowCell df r "Region_Name"
  let rev ← rowCell df r "Total_Revenue"
  let m ← fmtCellMoney rev
  let orders ← rowCell df r "Total_Orders"
  .ok (regionLine (fmtCellPlain n) m (fmtCellPlain orders))

/-- Lines 480-486: top-3 regions, emitted only when non-empty. -/
def regionalSection (s : Session) : Except String (List String) :=
  let df := analyze_regional_performance s
  if df.pdEmpty then .ok []
  else
    match mapLines (regionRowLine df) (df.rows.take 3) with
    | .error e => .error e
    | .ok body => .ok (["REGIONAL PERFORMANCE SUMMARY", sep50] ++ body ++ [""])

/-- `PharmaceuticalAnalytics.generate_detailed_report`: header, summary,
then the three data sections in source order, closed by a separator.
`now` stands for `datetime.now().strftime(...)`. -/
def generate_detailed_report (s : Session) (now : String) : Except String (List String) := do
  let sm ← get_executive_summary s
  let sales ← salesSection s
  let crit ← criticalSection s
  let reg ← regionalSection s
  .ok (headerLines now ++ summaryLines sm ++ sales ++ crit ++ reg ++ [sep80])

/-! ## Dashboard data accesses (`create_comprehensive_dashboard`, lines 289-433)

Chart rendering and the synthetic random trend panel (panel 6) are
external collaborators; what the method does with the database is
fetch each metric table and, inside a non-emptiness guard, select the
panel's columns. The model performs exactly those guarded column
selections (a missing column would raise `KeyError`) and the final
executive-summary computation for the text panel. -/

def requireCols (df : DataFrame) : List String → Except String Unit
  | [] => .ok ()
  | n :: l =>
    match df.colIndex n with
    | .error e => .error e
    | .ok _ => requireCols df l

/-- One dashboard panel: if the guarding table is non-empty, select the
panel's columns from the target table (the target differs from the
guard only for panel 7, which guards on the full product table but
reads `head(6)`). -/
def panelStep (guard target : DataFrame) (names : List String) : Except String Unit :=
  if guard.pdEmpty = false then requireCols target names else pure ()

def create_comprehensive_dashboard (s : Session) : Except String Summary := do
  let sales := (analyze_sales_performance s).head 8
  panelStep sales sales ["Representative_Name", "Total_Sales"]
  let reg := analyze_regional_performance s
  panelStep reg reg ["Total_Revenue", "Region_Name"]
  let inv := analyze_inventory_status s
  panelStep inv inv ["Stock_Status"]
  let cust := analyze_customer_segments s
  panelStep cust cust ["Customer_Type", "Total_Revenue"]
  let prod := analyze_product_performance s
  panelStep prod prod ["Category", "Total_Revenue"]
  panelStep prod (prod.head 6) ["Total_Revenue", "Product_Name"]
  panelStep sales sales ["Performance_Rating", "Total_Sales"]
  get_executive_summary s

/-! ## Connection close (`close_connection`, lines 491-503) -/

/-- The resource-holding part of the object state: whether
`self.cursor` and `self.connection` are truthy, and the `connected`
flag. `__init__` starts all three falsy. -/
structure ConnState where
  cursor : Bool
  connection : Bool
  connected : Bool
deriving DecidableEq

def initialConnState : ConnState := ⟨false, false, false⟩

/-- Whether each driver `.close()` call raises, when reached. -/
structure ReleaseOutcome where
  cursorCloseRaises : Bool
  connectionCloseRaises : Bool
deriving DecidableEq

/-- `PharmaceuticalAnalytics.close_connection`: the `try` block closes
the cursor, then the connection, then sets `self.connected = False`;
any exception jumps to the `except` handler, which only logs — so on a
release error the remaining statements (including the flag reset) are
skipped and the state is returned unchanged. The function is total:
no exception escapes. -/
def close_connection (st : ConnState) (b : ReleaseOutcome) : ConnState :=
  if st.cursor && b.cursorCloseRaises then st
  else if st.connection && b.connectionCloseRaises then st
  else ⟨st.cursor, st.connection, false⟩

/-! ## Concrete states used by witnesses and counterexamples -/

/-- A session that never connected: every query returns `pd.DataFrame()`. -/
def sNoConn : Session := ⟨false, emptyDB, fun _ => false⟩

/-- One delivered order of 100.00, one cancelled order of 500.00, and
one product (price 2) with one inventory row (quantity 3). -/
def db7 : DB :=
  ⟨[⟨1, none, "Delivered", 100, 0⟩, ⟨2, none, "Cancelled", 500, 0⟩],
   [], [], [⟨1, "Aspirin", "Analgesic", 2⟩], [⟨1, 3, 10, "WH1"⟩], [], [], 0⟩

/-- One product whose inventory row has `current_stock = 0` and a
negative `reorder_level`. -/
def db4 : DB :=
  ⟨[], [], [], [⟨1, "Ibuprofen", "Analgesic", 5⟩], [⟨1, 0, -1, "WH1"⟩], [], [], 0⟩

/-- A single order, Cancelled, with an involvement line of 500 for the
only product: the state on which product performance still counts the
cancelled order's line total. -/
def dbC7 : DB :=
  ⟨[⟨9, none, "Cancelled", 500, 0⟩], [], [], [⟨1, "Paracetamol", "Analgesic", 2⟩],
   [], [], [⟨1, 9, 4, 500⟩], 0⟩

/-- The summary value that the spec's words demand from an
all-queries-empty state. -/
def zeroSummary : Summary := ⟨some 0, 0, 0, some 0, some 0⟩

/-- Modelled from the spec: the `stock_status` bucket thresholds as §4.2
words them ("OUT_OF_STOCK if stock=0; CRITICAL if stock ≤ 30% of reorder
level; LOW if ≤60%; MODERATE if ≤100%; else ADEQUATE", first bucket
wins), for comparison with the classifier translated from the SQL. -/
def stockStatusSpec (stock reorderLevel : ℚ) : String :=
  if stock = 0 then "OUT_OF_STOCK"
  else if stock ≤ (3/10) * reorderLevel then "CRITICAL"
  else if stock ≤ (6/10) * reorderLevel then "LOW"
  else if stock ≤ reorderLevel then "MODERATE"
  else "ADEQUATE"

/-- The `Total_Sales` value of a sales-performance result row (column 4). -/
def totalSalesOfRow (r : List Cell) : Option ℚ :=
  match r.get? 4 with
  | some (.num q) => some q
  | _ => none

/-- A connected gateway whose driver raises on every query. -/
def gFail : Gateway := ⟨true, fun _ _ => .error "driver error"⟩

/-- The summary of `db7` under a healthy session. -/
def sm7 : Summary := ⟨some 100, 1, 0, some 6, some 100⟩

/-- Prepend one order to the session's database, all else unchanged. -/
def addOrder (s : Session) (o : Order) : Session :=
  ⟨s.connected,
   ⟨o :: s.db.orders, s.db.reps, s.db.regions, s.db.products, s.db.inventory,
    s.db.customers, s.db.involvements, s.db.today⟩,
   s.queryFails⟩

/-!
# Theorems

Generic inversion and evaluation lemmas first, then one theorem per
claim (with witnesses and counterexamples where required).
-/

/-- A catalog query either yields the column-less empty frame (not
connected, or the driver raised) or the full evaluation result. -/
theorem runCatalogQuery_cases (s : Session) (q : QueryId) :
    runCatalogQuery s q = emptyDataFrame ∨ runCatalogQuery s q = evalQuery s.db q := by
  unfold runCatalogQuery
  by_cases hc : s.connected = false
  · left; simp [hc]
  · by_cases hf : s.queryFails q
    · left; simp [hc, hf]
    · right; simp [hc, hf]

theorem runCatalogQuery_good (db : DB) (q : QueryId) :
    runCatalogQuery (goodSession db) q = evalQuery db q := rfl

theorem pyFloatCell_optNumCell (x : Option ℚ) : pyFloatCell (optNumCell x) = .ok x := by
  cases x <;> rfl

theorem colIndex_of_mem {df : DataFrame} {n : String} (h : n ∈ df.cols) :
    ∃ j, df.colIndex n = .ok j := by
  unfold DataFrame.colIndex
  cases hf : df.cols.findIdx? (fun c => decide (c = n)) with
  | some j => exact ⟨j, rfl⟩
  | none =>
    exfalso
    have := List.findIdx?_eq_none_iff.1 hf n h
    simp at this

theorem requireCols_ok {df : DataFrame} : ∀ {names : List String},
    (∀ n ∈ names, n ∈ df.cols) → requireCols df names = .ok ()
  | [], _ => rfl
  | n :: l, h => by
    obtain ⟨j, hj⟩ := colIndex_of_mem (h n (by simp))
    rw [requireCols, hj]
    exact requireCols_ok (fun m hm => h m (by simp [hm]))

theorem mapLines_ok {α : Type} {f : α → Except String String} {P : String → Prop} :
    ∀ {l : List α}, (∀ a ∈ l, ∃ b, f a = .ok b ∧ P b) →
      ∃ bs, mapLines f l = .ok bs ∧ ∀ b ∈ bs, P b
  | [], _ => ⟨[], rfl, by simp⟩
  | a :: l, h => by
    obtain ⟨b, hb, hP⟩ := h a (by simp)
    obtain ⟨bs, hbs, hPs⟩ :=
      @mapLines_ok α f P l (fun x hx => h x (List.mem_cons_of_mem a hx))
    refine ⟨b :: bs, ?_, ?_⟩
    · rw [mapLines, hb, hbs]
    · intro c hc
      rcases List.mem_cons.1 hc with rfl | hc
      · exact hP
      · exact hPs c hc

/-! ## C1 — `execute_query` is fail-soft -/

/-- C1: for every query string and parameter tuple, if the gateway is
not connected or the underlying execution raises, `execute_query`
returns the empty table (zero rows; its column list is defined — the
empty list, as `pd.DataFrame()` has no columns) and, being a total
function into `DataFrame`, never lets an exception escape. -/
theorem execute_query_fail_soft (g : Gateway) (query : String) (params : List String)
    (h : g.connected = false ∨ ∃ e, g.runSql query params = .error e) :
    execute_query g query params = emptyDataFrame ∧
    (execute_query g query params).rows = [] ∧
    (execute_query g query params).cols = [] := by
  rcases h with h | ⟨e, h⟩
  · simp [execute_query, h, emptyDataFrame]
  · by_cases hc : g.connected = false
    · simp [execute_query, hc, emptyDataFrame]
    · simp [execute_query, hc, h, emptyDataFrame]

theorem execute_query_fail_soft_witness :
    (gFail.connected = false ∨ ∃ e, gFail.runSql "SELECT 1" [] = .error e) ∧
    execute_query gFail "SELECT 1" [] = emptyDataFrame ∧
    (execute_query gFail "SELECT 1" [] ).rows = [] ∧
    (execute_query gFail "SELECT 1" [] ).cols = [] :=
  ⟨Or.inr ⟨"driver error", rfl⟩,
   execute_query_fail_soft gFail "SELECT 1" [] (Or.inr ⟨"driver error", rfl⟩)⟩

/-! ## C3 — `close_connection` -/

/-- C3 counterexample: from the connected state with live handles, if
closing the cursor raises, the swallowed exception skips
`self.connected = False`, so the session is **not** left disconnected —
refuting "after it returns the session is in the Disconnected state"
for every state. -/
theorem close_connection_counterexample :
    (close_connection ⟨true, true, true⟩ ⟨true, false⟩).connected = true := rfl

/-- C3 amended: `close_connection` never raises (it is a total function
on states); when no release raises — in particular when the session
never connected — the `connected` flag is false afterwards; when a
release does raise, the error is swallowed but the state (including the
`connected` flag) is returned unchanged. -/
theorem close_connection_amended :
    (∀ (st : ConnState) (b : ReleaseOutcome),
        (st.cursor && b.cursorCloseRaises) = false →
        (st.connection && b.connectionCloseRaises) = false →
        (close_connection st b).connected = false) ∧
    (∀ (st : ConnState) (b : ReleaseOutcome),
        (st.cursor && b.cursorCloseRaises) = true →
        close_connection st b = st) ∧
    (∀ (st : ConnState) (b : ReleaseOutcome),
        (st.cursor && b.cursorCloseRaises) = false →
        (st.connection && b.connectionCloseRaises) = true →
        close_connection st b = st) ∧
    (∀ b : ReleaseOutcome, (close_connection initialConnState b).connected = false) := by
  refine ⟨?_, ?_, ?_, ?_⟩
  · intro st b h1 h2; simp [close_connection, h1, h2]
  · intro st b h1; simp [close_connection, h1]
  · intro st b h1 h2; simp [close_connection, h1, h2]
  · intro b; simp [close_connection, initialConnState]

theorem close_connection_amended_witness :
    (initialConnState.cursor && (true : Bool)) = false ∧
    (initialConnState.connection && (true : Bool)) = false ∧
    (close_connection initialConnState ⟨true, true⟩).connected = false :=
  ⟨rfl, rfl, close_connection_amended.1 initialConnState ⟨true, true⟩ rfl rfl⟩

/-! ## C10 — the summary on all-empty query results -/

/-- C10: when every catalog query yields an empty table (for example
when the gateway never connected), `get_executive_summary` does not
raise and returns exactly the five keys, each 0 (the average is 0
because `total_orders` is 0). -/
theorem summary_zero_on_all_empty (s : Session)
    (h : ∀ q, (runCatalogQuery s q).rows = []) :
    get_executive_summary s = .ok zeroSummary := by
  have he : ∀ q, (runCatalogQuery s q).pdEmpty = true := by
    intro q
    simp [DataFrame.pdEmpty, h q]
  simp [get_executive_summary, scalarOf, intScalarOf, he, zeroSummary,
    Bind.bind, Except.bind, pure, Except.pure]

theorem summary_zero_on_all_empty_witness :
    (∀ q, (runCatalogQuery sNoConn q).rows = []) ∧
    get_executive_summary sNoConn = .ok zeroSummary :=
  ⟨fun _ => rfl, summary_zero_on_all_empty sNoConn (fun _ => rfl)⟩

/-! ## C4 — stock 0 classification -/

/-- Every row of the inventory-status result comes from one
product-inventory join pair, with cells built by `invRowCells`. -/
theorem mem_inventory_rows {db : DB} {row : List Cell}
    (h : row ∈ (evalQuery db .inventoryStatus).rows) :
    ∃ pi ∈ joinInventory db, row = invRowCells pi := by
  simp only [evalQuery] at h
  obtain ⟨pi, hpi, rfl⟩ := List.mem_map.1 h
  exact ⟨pi,
    (List.perm_insertionSort (fun a b => invLeB a b = true) (joinInventory db)).mem_iff.1 hpi,
    rfl⟩

/-- The single result row of `analyze_inventory_status` on `db4`. -/
theorem db4_inventory_rows :
    (analyze_inventory_status (goodSession db4)).rows =
      [invRowCells (⟨1, "Ibuprofen", "Analgesic", 5⟩, ⟨1, 0, -1, "WH1"⟩)] := rfl

/-- C4 counterexample: on `db4` the single inventory row has
`current_stock = 0` and `reorder_level = -1`; it is classified
`OUT_OF_STOCK` (cell 7) yet its action (cell 8) is `SUFFICIENT`, not
`REORDER_NOW` (`0 <= Reorder_Level` fails), refuting "action
REORDER_NOW whatever the value of reorder_level". -/
theorem reorder_now_counterexample :
    (analyze_inventory_status (goodSession db4)).rows =
      [invRowCells (⟨1, "Ibuprofen", "Analgesic", 5⟩, ⟨1, 0, -1, "WH1"⟩)] ∧
    (invRowCells (⟨1, "Ibuprofen", "Analgesic", 5⟩, ⟨1, 0, -1, "WH1"⟩)).get? 7 =
      some (.str "OUT_OF_STOCK") ∧
    (invRowCells (⟨1, "Ibuprofen", "Analgesic", 5⟩, ⟨1, 0, -1, "WH1"⟩)).get? 8 =
      some (.str "SUFFICIENT") ∧
    "SUFFICIENT" ≠ "REORDER_NOW" := by
  refine ⟨db4_inventory_rows, ?_, ?_, by decide⟩
  · simp [invRowCells, stock_status]
  · have ha : action_required 0 (-1) = "SUFFICIENT" := by
      norm_num [action_required]
    simp [invRowCells, ha]

/-- C4 amended: a row with `current_stock = 0` always gets stock_status
`OUT_OF_STOCK`; its action is `REORDER_NOW` whenever the reorder level
is non-negative (for a negative reorder level the action CASE falls
through to `SUFFICIENT`). -/
theorem reorder_now_amended (r : ℚ) :
    stock_status 0 r = "OUT_OF_STOCK" ∧ (0 ≤ r → action_required 0 r = "REORDER_NOW") := by
  constructor
  · rfl
  · intro h
    simp [action_required, h]

theorem reorder_now_amended_witness :
    stock_status 0 5 = "OUT_OF_STOCK" ∧ (0 ≤ (5 : ℚ)) ∧
    action_required 0 5 = "REORDER_NOW" :=
  ⟨(reorder_now_amended 5).1, by norm_num, (reorder_now_amended 5).2 (by norm_num)⟩

/-! ## C5 — guarded average order value -/

/-- C5: whenever the summary is produced, `average_order_value` equals
`total_revenue / total_orders` if `total_orders > 0` and is 0 if
`total_orders = 0`; the division is syntactically guarded by the
positivity test, so no division by zero is ever performed. -/
theorem average_order_value_guarded (s : Session) (sm : Summary)
    (h : get_executive_summary s = .ok sm) :
    (0 < sm.total_orders →
      sm.average_order_value = sm.total_revenue.map (fun r => r / (sm.total_orders : ℚ))) ∧
    (sm.total_orders = 0 → sm.average_order_value = some 0) := by
  unfold get_executive_summary at h
  cases h1 : scalarOf s .revenue "total_revenue" with
  | error e => rw [h1] at h; simp [Bind.bind, Except.bind] at h
  | ok rev =>
  rw [h1] at h
  cases h2 : intScalarOf s .ordersCount "total_orders" with
  | error e => rw [h2] at h; simp [Bind.bind, Except.bind] at h
  | ok ord =>
  rw [h2] at h
  cases h3 : intScalarOf s .activeReps "active_reps" with
  | error e => rw [h3] at h; simp [Bind.bind, Except.bind] at h
  | ok reps =>
  rw [h3] at h
  cases h4 : scalarOf s .inventoryValue "inventory_value" with
  | error e => rw [h4] at h; simp [Bind.bind, Except.bind] at h
  | ok inv =>
  rw [h4] at h
  simp only [Bind.bind, Except.bind, pure, Except.pure, Except.ok.injEq] at h
  subst h
  constructor
  · intro hpos
    simp only [Summary.average_order_value, Summary.total_orders, Summary.total_revenue] at *
    rw [if_pos hpos]
  · intro hz
    simp only [Summary.average_order_value, Summary.total_orders] at *
    rw [hz]
    simp

/-- Concrete evaluation of the summary on `db7`: revenue 100 (the
cancelled 500 excluded), 1 order, no representatives, inventory value
`2 * 3 = 6`, average `100 / 1`. -/
theorem db7_summary : get_executive_summary (goodSession db7) = .ok sm7 := by
  have h1 : scalarOf (goodSession db7) .revenue "total_revenue" = .ok (some 100) := by
    simp [scalarOf, runCatalogQuery, goodSession, evalQuery, nonCancelled, db7, sumAgg,
      optNumCell, DataFrame.pdEmpty, DataFrame.cellAt, DataFrame.colIndex, pyFloatCell]
  have h2 : intScalarOf (goodSession db7) .ordersCount "total_orders" = .ok 1 := by
    simp [intScalarOf, runCatalogQuery, goodSession, evalQuery, nonCancelled, db7,
      DataFrame.pdEmpty, DataFrame.cellAt, DataFrame.colIndex, pyIntCell]
  have h3 : intScalarOf (goodSession db7) .activeReps "active_reps" = .ok 0 := by
    simp [intScalarOf, runCatalogQuery, goodSession, evalQuery, db7,
      DataFrame.pdEmpty, DataFrame.cellAt, DataFrame.colIndex, pyIntCell]
  have h4 : scalarOf (goodSession db7) .inventoryValue "inventory_value" = .ok (some 6) := by
    simp [scalarOf, runCatalogQuery, goodSession, evalQuery, joinInventory, db7, sumAgg,
      optNumCell, DataFrame.pdEmpty, DataFrame.cellAt, DataFrame.colIndex, pyFloatCell]
    norm_num
  rw [get_executive_summary, h1, h2, h3, h4]
  simp [Bind.bind, Except.bind, pure, Except.pure, sm7]

theorem average_order_value_guarded_witness :
    get_executive_summary (goodSession db7) = .ok sm7 ∧
    0 < sm7.total_orders ∧
    sm7.average_order_value = sm7.total_revenue.map (fun r => r / (sm7.total_orders : ℚ)) :=
  ⟨db7_summary, by norm_num [sm7],
    (average_order_value_guarded (goodSession db7) sm7 db7_summary).1 (by norm_num [sm7])⟩

/-! ## C6 — stock-status buckets -/

/-- C6: the stock-status bucket is a pure function of
`(current_stock, reorder_level)` that agrees with the spec's
thresholds; each inventory result row carries the classifier of its own
stock and reorder cells; and exact 30%/60%/100% boundary stocks fall
into the stricter bucket (CRITICAL/LOW/MODERATE respectively). -/
theorem stock_status_buckets :
    (∀ stock reorderLevel : ℚ,
      stock_status stock reorderLevel = stockStatusSpec stock reorderLevel) ∧
    (∀ (db : DB) (row : List Cell),
      row ∈ (analyze_inventory_status (goodSession db)).rows →
      ∃ stock reorderLevel : ℚ,
        row.get? 3 = some (.num stock) ∧ row.get? 4 = some (.num reorderLevel) ∧
        row.get? 7 = some (.str (stock_status stock reorderLevel))) ∧
    (∀ r : ℚ, 0 < r →
      stock_status ((3/10) * r) r = "CRITICAL" ∧
      stock_status ((6/10) * r) r = "LOW" ∧
      stock_status r r = "MODERATE") := by
  refine ⟨?_, ?_, ?_⟩
  · intro stock reorderLevel
    unfold stock_status stockStatusSpec
    rw [mul_comm reorderLevel (3/10), mul_comm reorderLevel (6/10)]
  · intro db row h
    obtain ⟨pi, _, rfl⟩ := mem_inventory_rows h
    exact ⟨pi.2.quantity, pi.2.reorderLevel, rfl, rfl, rfl⟩
  · intro r hr
    refine ⟨?_, ?_, ?_⟩
    · have hne : (3/10) * r ≠ 0 := by positivity
      have hle : (3/10) * r ≤ r * (3/10) := le_of_eq (mul_comm _ _)
      simp [stock_status, hne, hle]
    · have hne : (6/10) * r ≠ 0 := by positivity
      have hnot : ¬ ((6/10) * r ≤ r * (3/10)) := by
        rw [mul_comm r (3/10)]
        intro hcon
        nlinarith
      have hle : (6/10) * r ≤ r * (6/10) := le_of_eq (mul_comm _ _)
      simp [stock_status, hne, hnot, hle]
    · have hne : r ≠ 0 := ne_of_gt hr
      have hnot1 : ¬ (r ≤ r * (3/10)) := by nlinarith
      have hnot2 : ¬ (r ≤ r * (6/10)) := by nlinarith
      simp [stock_status, hne, hnot1, hnot2]

theorem stock_status_buckets_witness :
    (invRowCells (⟨1, "Ibuprofen", "Analgesic", 5⟩, ⟨1, 0, -1, "WH1"⟩) ∈
      (analyze_inventory_status (goodSession db4)).rows) ∧
    (∃ stock reorderLevel : ℚ,
      (invRowCells (⟨1, "Ibuprofen", "Analgesic", 5⟩, ⟨1, 0, -1, "WH1"⟩)).get? 3 =
        some (.num stock) ∧
      (invRowCells (⟨1, "Ibuprofen", "Analgesic", 5⟩, ⟨1, 0, -1, "WH1"⟩)).get? 4 =
        some (.num reorderLevel) ∧
      (invRowCells (⟨1, "Ibuprofen", "Analgesic", 5⟩, ⟨1, 0, -1, "WH1"⟩)).get? 7 =
        some (.str (stock_status stock reorderLevel))) ∧
    (0 < (10 : ℚ)) ∧ stock_status ((3/10) * 10) 10 = "CRITICAL" ∧
    stock_status ((6/10) * 10) 10 = "LOW" ∧ stock_status 10 10 = "MODERATE" := by
  have hmem : invRowCells (⟨1, "Ibuprofen", "Analgesic", 5⟩, ⟨1, 0, -1, "WH1"⟩) ∈
      (analyze_inventory_status (goodSession db4)).rows := by
    rw [db4_inventory_rows]
    exact List.mem_singleton.2 rfl
  have h10 : (0 : ℚ) < 10 := by norm_num
  obtain ⟨hc, hl, hm⟩ := stock_status_buckets.2.2 10 h10
  exact ⟨hmem, stock_status_buckets.2.1 db4 _ hmem, h10, hc, hl, hm⟩

/-! ## C7 — cancelled orders excluded from the summary -/

/-- C7 counterexample: on `dbC7` the only order is Cancelled, yet the
`Total_Revenue` column (index 5) of `analyze_product_performance` is
500 — the cancelled order's involvement line total. The
`o.Order_Status != 'Cancelled'` test of lines 281-282 sits in a LEFT
JOIN ON-clause whose columns are never selected, so it filters
nothing; hence "every monetary aggregate excludes orders whose status
is Cancelled" is false. -/
theorem product_revenue_includes_cancelled :
    dbC7.orders.map (fun o => o.status) = ["Cancelled"] ∧
    (analyze_product_performance (goodSession dbC7)).rows.map (fun r => r.get? 5) =
      [some (.num 500)] ∧
    (500 : ℚ) ≠ 0 := by
  refine ⟨rfl, ?_, by norm_num⟩
  simp [analyze_product_performance, runCatalogQuery, goodSession, evalQuery, productSorted,
    List.insertionSort, List.orderedInsert, productGroups, productGroupRows, dbC7,
    sumAgg, optNumCell, productRowCells, List.get?]

/-- C7 amended: the executive summary's monetary aggregates exclude
Cancelled orders — prepending a Cancelled order to any database state
leaves the summary unchanged, and on the concrete two-order state
`db7` it reports `total_revenue = 100` and `total_orders = 1`. (Not
every monetary aggregate excludes them: product performance counts
line totals of Cancelled orders, see the counterexample.) -/
theorem cancelled_orders_excluded :
    (∀ (s : Session) (o : Order), o.status = "Cancelled" →
      get_executive_summary (addOrder s o) = get_executive_summary s) ∧
    get_executive_summary (goodSession db7) = .ok sm7 := by
  constructor
  · intro s o hst
    have hnc : nonCancelled (addOrder s o).db = nonCancelled s.db := by
      simp [addOrder, nonCancelled, List.filter_cons, hst]
    have e1 : evalQuery (addOrder s o).db .revenue = evalQuery s.db .revenue := by
      simp [evalQuery, hnc]
    have e2 : evalQuery (addOrder s o).db .ordersCount = evalQuery s.db .ordersCount := by
      simp [evalQuery, hnc]
    have e3 : evalQuery (addOrder s o).db .activeReps = evalQuery s.db .activeReps := rfl
    have e4 : evalQuery (addOrder s o).db .inventoryValue =
        evalQuery s.db .inventoryValue := rfl
    have hc : (addOrder s o).connected = s.connected := rfl
    have hf : (addOrder s o).queryFails = s.queryFails := rfl
    simp only [get_executive_summary, scalarOf, intScalarOf, runCatalogQuery]
    rw [hc, hf, e1, e2, e3, e4]
  · exact db7_summary

theorem cancelled_orders_excluded_witness :
    (Order.mk 3 none "Cancelled" 77 0).status = "Cancelled" ∧
    get_executive_summary (addOrder (goodSession db7) (Order.mk 3 none "Cancelled" 77 0)) =
      get_executive_summary (goodSession db7) :=
  ⟨rfl, cancelled_orders_excluded.1 (goodSession db7) (Order.mk 3 none "Cancelled" 77 0) rfl⟩

/-! ## C9 — sales performance ordered by total sales descending -/

theorem optGeB_total (a b : Option ℚ) : optGeB a b = true ∨ optGeB b a = true := by
  cases a <;> cases b <;> simp [optGeB]
  exact le_total _ _

theorem optGeB_trans {a b c : Option ℚ}
    (h1 : optGeB a b = true) (h2 : optGeB b c = true) : optGeB a c = true := by
  cases a <;> cases b <;> cases c <;> simp_all [optGeB]
  exact le_trans h2 h1

theorem totalSalesOfRow_cells (g : SalesGroup) :
    totalSalesOfRow (salesRowCells g) = g.totalSales := by
  cases h : g.totalSales <;> simp [totalSalesOfRow, salesRowCells, optNumCell, h]

/-- C9: the `Total_Sales` column of `analyze_sales_performance` is
non-increasing across consecutive rows (with SQL NULL sorting last, as
MySQL's `ORDER BY … DESC` places it), for every session — the failed
or disconnected session returns the empty table, which is trivially
sorted. -/
theorem sales_sorted_desc (s : Session) :
    List.Chain' (fun a b => optGeB a b = true)
      ((analyze_sales_performance s).rows.map totalSalesOfRow) := by
  rcases runCatalogQuery_cases s .salesPerf with h | h <;>
    unfold analyze_sales_performance <;> rw [h]
  · simp [emptyDataFrame]
  · simp only [evalQuery, List.map_map]
    have hcomp : (totalSalesOfRow ∘ salesRowCells) = fun g => g.totalSales :=
      funext totalSalesOfRow_cells
    rw [hcomp]
    rw [List.chain'_map]
    unfold salesSorted
    haveI : IsTotal SalesGroup (fun a b => optGeB a.totalSales b.totalSales = true) :=
      ⟨fun a b => optGeB_total a.totalSales b.totalSales⟩
    haveI : IsTrans SalesGroup (fun a b => optGeB a.totalSales b.totalSales = true) :=
      ⟨fun _ _ _ h1 h2 => optGeB_trans h1 h2⟩
    exact (List.sorted_insertionSort
      (fun a b => optGeB a.totalSales b.totalSales = true) (salesGroups s.db)).chain'

/-! ## C2 / C8 — report and dashboard machinery

Every line a data section emits contains a colon character, while the
"CRITICAL INVENTORY ALERTS" header contains none; this separates the
header from every other report line without reasoning about the
abstracted numeral rendering. -/

theorem ne_header_of_colon {l : String} (h : ':' ∈ l.data) :
    l ≠ "CRITICAL INVENTORY ALERTS" := by
  intro e
  subst e
  revert h
  decide

theorem colon_mem_left {a b : String} (h : ':' ∈ a.data) : ':' ∈ (a ++ b).data := by
  rw [String.data_append]
  exact List.mem_append.2 (Or.inl h)

theorem colon_mem_right {a b : String} (h : ':' ∈ b.data) : ':' ∈ (a ++ b).data := by
  rw [String.data_append]
  exact List.mem_append.2 (Or.inr h)

theorem colon_salesLine (n reg m : String) : ':' ∈ (salesLine n reg m).data :=
  colon_mem_left (colon_mem_right (by decide))

theorem colon_regionLine (n rev orders : String) : ':' ∈ (regionLine n rev orders).data := by
  unfold regionLine
  exact colon_mem_left (colon_mem_left (colon_mem_left (colon_mem_left
    (colon_mem_right (by decide)))))

theorem header_notin_headerLines (now : String) :
    "CRITICAL INVENTORY ALERTS" ∉ headerLines now := by
  intro h
  simp only [headerLines, List.mem_cons, List.not_mem_nil, or_false] at h
  rcases h with h | h | h | h | h
  · exact absurd h (by decide)
  · exact absurd h (by decide)
  · exact absurd h (by decide)
  · exact ne_header_of_colon (colon_mem_left (by decide)) h.symm
  · exact absurd h (by decide)

theorem header_notin_summaryLines (sm : Summary) :
    "CRITICAL INVENTORY ALERTS" ∉ summaryLines sm := by
  intro h
  simp only [summaryLines, List.mem_cons, List.not_mem_nil, or_false] at h
  rcases h with h | h | h | h | h | h | h | h
  · exact absurd h (by decide)
  · exact absurd h (by decide)
  · exact ne_header_of_colon (colon_mem_left (by decide)) h.symm
  · exact ne_header_of_colon (colon_mem_left (by decide)) h.symm
  · exact ne_header_of_colon (colon_mem_left (by decide)) h.symm
  · exact ne_header_of_colon (colon_mem_left (by decide)) h.symm
  · exact ne_header_of_colon (colon_mem_left (by decide)) h.symm
  · exact absurd h (by decide)

theorem mem_sales_rows {db : DB} {row : List Cell}
    (h : row ∈ (evalQuery db .salesPerf).rows) : ∃ g, row = salesRowCells g := by
  simp only [evalQuery] at h
  obtain ⟨g, _, rfl⟩ := List.mem_map.1 h
  exact ⟨g, rfl⟩

theorem mem_regional_rows {db : DB} {row : List Cell}
    (h : row ∈ (evalQuery db .regionalPerf).rows) : ∃ g, row = regionRowCells g := by
  simp only [evalQuery] at h
  obtain ⟨g, _, rfl⟩ := List.mem_map.1 h
  exact ⟨g, rfl⟩

/-- Evaluate one sales report line on a well-formed sales row: it
succeeds and the line contains a colon. -/
theorem salesRowLine_eval (db : DB) (g : SalesGroup) :
    ∃ b, salesRowLine (evalQuery db .salesPerf) (salesRowCells g) = .ok b ∧
      ':' ∈ b.data := by
  cases hts : g.totalSales with
  | none =>
    refine ⟨salesLine g.name g.regionName "nan", ?_, colon_salesLine _ _ _⟩
    simp only [salesRowCells, hts, optNumCell]
    rfl
  | some q =>
    refine ⟨salesLine g.name g.regionName (fmtQ q), ?_, colon_salesLine _ _ _⟩
    simp only [salesRowCells, hts, optNumCell]
    rfl

/-- Evaluate one regional report line on a well-formed regional row. -/
theorem regionRowLine_eval (db : DB) (g : RegionGroup) :
    ∃ b, regionRowLine (evalQuery db .regionalPerf) (regionRowCells g) = .ok b ∧
      ':' ∈ b.data := by
  cases hts : g.totalRevenue with
  | none =>
    refine ⟨regionLine g.name "nan" (fmtQ (g.totalOrders : ℚ)), ?_, colon_regionLine _ _ _⟩
    simp only [regionRowCells, hts, optNumCell]
    rfl
  | some q =>
    refine ⟨regionLine g.name (fmtQ q) (fmtQ (g.totalOrders : ℚ)), ?_, colon_regionLine _ _ _⟩
    simp only [regionRowCells, hts, optNumCell]
    rfl

/-- Evaluate one critical-alert line on a well-formed inventory row. -/
theorem critRowLine_eval (db : DB) (pi : Product × InventoryRec) :
    critRowLine (evalQuery db .inventoryStatus) (invRowCells pi) =
      .ok (critLine pi.1.name (fmtQ pi.2.quantity)
        (stock_status pi.2.quantity pi.2.reorderLevel)) := rfl

/-- The sales section never raises and never emits the critical-alerts
header. -/
theorem salesSection_ok (s : Session) :
    ∃ L, salesSection s = .ok L ∧ ∀ b ∈ L, b ≠ "CRITICAL INVENTORY ALERTS" := by
  rcases runCatalogQuery_cases s .salesPerf with h | h <;>
    simp only [salesSection, analyze_sales_performance] <;> rw [h]
  · exact ⟨[], by simp [emptyDataFrame, DataFrame.pdEmpty], by simp⟩
  · by_cases he : (evalQuery s.db .salesPerf).pdEmpty
    · exact ⟨[], by simp [he], by simp⟩
    · obtain ⟨bs, hbs, hP⟩ := @mapLines_ok (List Cell)
        (salesRowLine (evalQuery s.db .salesPerf)) (fun b => ':' ∈ b.data)
        ((evalQuery s.db .salesPerf).rows.take 5)
        (fun r hr => by
          obtain ⟨g, rfl⟩ := mem_sales_rows (List.take_subset _ _ hr)
          exact salesRowLine_eval s.db g)
      refine ⟨["TOP SALES PERFORMERS", sep50] ++ bs ++ [""], by simp [he, hbs], ?_⟩
      intro b hb
      rcases List.mem_append.1 hb with hb1 | hb1
      · rcases List.mem_append.1 hb1 with hb2 | hb2
        · simp only [List.mem_cons, List.not_mem_nil, or_false] at hb2
          rcases hb2 with rfl | rfl
          · decide
          · decide
        · exact ne_header_of_colon (hP b hb2)
      · simp only [List.mem_singleton] at hb1
        subst hb1
        decide

/-- The regional section never raises and never emits the
critical-alerts header. -/
theorem regionalSection_ok (s : Session) :
    ∃ L, regionalSection s = .ok L ∧ ∀ b ∈ L, b ≠ "CRITICAL INVENTORY ALERTS" := by
  rcases runCatalogQuery_cases s .regionalPerf with h | h <;>
    simp only [regionalSection, analyze_regional_performance] <;> rw [h]
  · exact ⟨[], by simp [emptyDataFrame, DataFrame.pdEmpty], by simp⟩
  · by_cases he : (evalQuery s.db .regionalPerf).pdEmpty
    · exact ⟨[], by simp [he], by simp⟩
    · obtain ⟨bs, hbs, hP⟩ := @mapLines_ok (List Cell)
        (regionRowLine (evalQuery s.db .regionalPerf)) (fun b => ':' ∈ b.data)
        ((evalQuery s.db .regionalPerf).rows.take 3)
        (fun r hr => by
          obtain ⟨g, rfl⟩ := mem_regional_rows (List.take_subset _ _ hr)
          exact regionRowLine_eval s.db g)
      refine ⟨["REGIONAL PERFORMANCE SUMMARY", sep50] ++ bs ++ [""], by simp [he, hbs], ?_⟩
      intro b hb
      rcases List.mem_append.1 hb with hb1 | hb1
      · rcases List.mem_append.1 hb1 with hb2 | hb2
        · simp only [List.mem_cons, List.not_mem_nil, or_false] at hb2
          rcases hb2 with rfl | rfl
          · decide
          · decide
        · exact ne_header_of_colon (hP b hb2)
      · simp only [List.mem_singleton] at hb1
        subst hb1
        decide

/-- On a healthy session, line 471 computes the filter of the inventory
rows on `Stock_Status ∈ {CRITICAL, OUT_OF_STOCK}` (column index 7). -/
theorem criticalRows_good (db : DB) :
    criticalRows (goodSession db) = .ok ((evalQuery db .inventoryStatus).rows.filter
      (fun r => decide (r.get? 7 = some (Cell.str "CRITICAL") ∨
                        r.get? 7 = some (Cell.str "OUT_OF_STOCK")))) := rfl

/-- When the inventory query itself executed (connected, no driver
failure), the critical section never raises. -/
theorem criticalSection_ok_of (s : Session) (hc : s.connected = true)
    (hf : s.queryFails .inventoryStatus = false) :
    ∃ L, criticalSection s = .ok L := by
  have hdf : analyze_inventory_status s = evalQuery s.db .inventoryStatus := by
    simp [analyze_inventory_status, runCatalogQuery, hc, hf]
  have hcr : criticalRows s = .ok ((evalQuery s.db .inventoryStatus).rows.filter
      (fun r => decide (r.get? 7 = some (Cell.str "CRITICAL") ∨
                        r.get? 7 = some (Cell.str "OUT_OF_STOCK")))) := by
    unfold criticalRows
    rw [hdf]
    rfl
  unfold criticalSection
  rw [hdf, hcr]
  simp only [Bind.bind, Except.bind]
  by_cases hemp : ((evalQuery s.db .inventoryStatus).rows.filter
      (fun r => decide (r.get? 7 = some (Cell.str "CRITICAL") ∨
                        r.get? 7 = some (Cell.str "OUT_OF_STOCK")))).isEmpty
  · exact ⟨[], by rw [if_pos hemp]⟩
  · obtain ⟨bs, hbs, _⟩ := @mapLines_ok (List Cell)
      (critRowLine (evalQuery s.db .inventoryStatus)) (fun _ => True)
      ((evalQuery s.db .inventoryStatus).rows.filter
        (fun r => decide (r.get? 7 = some (Cell.str "CRITICAL") ∨
                          r.get? 7 = some (Cell.str "OUT_OF_STOCK"))))
      (fun r hr => by
        obtain ⟨pi, _, rfl⟩ := mem_inventory_rows (List.mem_filter.1 hr).1
        exact ⟨_, critRowLine_eval s.db pi, trivial⟩)
    refine ⟨["CRITICAL INVENTORY ALERTS", sep50] ++ bs ++ [""], ?_⟩
    rw [if_neg hemp, hbs]

/-- When the inventory analysis has no CRITICAL / OUT_OF_STOCK rows,
the critical section contributes no lines at all. -/
theorem criticalSection_empty {db : DB}
    (h : ∀ row ∈ (evalQuery db .inventoryStatus).rows,
      ¬ (row.get? 7 = some (Cell.str "CRITICAL") ∨
         row.get? 7 = some (Cell.str "OUT_OF_STOCK"))) :
    criticalSection (goodSession db) = .ok [] := by
  have hfil : (evalQuery db .inventoryStatus).rows.filter
      (fun r => decide (r.get? 7 = some (Cell.str "CRITICAL") ∨
                        r.get? 7 = some (Cell.str "OUT_OF_STOCK"))) = [] :=
    List.filter_eq_nil_iff.2 (fun r hr => by simpa using h r hr)
  have hcr := criticalRows_good db
  rw [hfil] at hcr
  unfold criticalSection
  rw [hcr]
  rfl

theorem pyIntCell_natCast (n : ℕ) : pyIntCell (.num ((n : ℕ) : ℚ)) = .ok (n : ℤ) := by
  simp [pyIntCell, Rat.num_natCast, Rat.den_natCast, Int.tdiv_one]

/-- `get_executive_summary` never raises: each scalar query either came
back empty (`else 0` branch) or carries its aggregate in row 0 of its
single column, on which `float` / `int` succeed. -/
theorem scalarOf_revenue_ok (s : Session) :
    ∃ v, scalarOf s .revenue "total_revenue" = .ok v := by
  rcases runCatalogQuery_cases s .revenue with h | h <;> unfold scalarOf <;> rw [h]
  · exact ⟨some 0, by simp [emptyDataFrame, DataFrame.pdEmpty]⟩
  · refine ⟨sumAgg ((nonCancelled s.db).map (fun o => o.totalCost)), ?_⟩
    simp [evalQuery, DataFrame.pdEmpty, DataFrame.cellAt, DataFrame.colIndex,
      List.findIdx?_cons, pyFloatCell_optNumCell]

theorem scalarOf_inventory_ok (s : Session) :
    ∃ v, scalarOf s .inventoryValue "inventory_value" = .ok v := by
  rcases runCatalogQuery_cases s .inventoryValue with h | h <;> unfold scalarOf <;> rw [h]
  · exact ⟨some 0, by simp [emptyDataFrame, DataFrame.pdEmpty]⟩
  · refine ⟨sumAgg ((joinInventory s.db).map (fun pi => pi.1.price * pi.2.quantity)), ?_⟩
    simp [evalQuery, DataFrame.pdEmpty, DataFrame.cellAt, DataFrame.colIndex,
      List.findIdx?_cons, pyFloatCell_optNumCell]

theorem intScalarOf_orders_ok (s : Session) :
    ∃ v, intScalarOf s .ordersCount "total_orders" = .ok v := by
  rcases runCatalogQuery_cases s .ordersCount with h | h <;> unfold intScalarOf <;> rw [h]
  · exact ⟨0, by simp [emptyDataFrame, DataFrame.pdEmpty]⟩
  · refine ⟨((nonCancelled s.db).length : ℤ), ?_⟩
    simp [evalQuery, DataFrame.pdEmpty, DataFrame.cellAt, DataFrame.colIndex,
      List.findIdx?_cons, pyIntCell_natCast]

theorem intScalarOf_reps_ok (s : Session) :
    ∃ v, intScalarOf s .activeReps "active_reps" = .ok v := by
  rcases runCatalogQuery_cases s .activeReps with h | h <;> unfold intScalarOf <;> rw [h]
  · exact ⟨0, by simp [emptyDataFrame, DataFrame.pdEmpty]⟩
  · refine ⟨(((s.db.reps.map (fun r => r.rid)).dedup.length : ℕ) : ℤ), ?_⟩
    simp [evalQuery, DataFrame.pdEmpty, DataFrame.cellAt, DataFrame.colIndex,
      List.findIdx?_cons, pyIntCell_natCast]

theorem get_executive_summary_ok (s : Session) :
    ∃ sm, get_executive_summary s = .ok sm := by
  obtain ⟨v1, h1⟩ := scalarOf_revenue_ok s
  obtain ⟨n2, h2⟩ := intScalarOf_orders_ok s
  obtain ⟨n3, h3⟩ := intScalarOf_reps_ok s
  obtain ⟨v4, h4⟩ := scalarOf_inventory_ok s
  refine ⟨⟨v1, n2, n3, v4,
    if 0 < n2 then v1.map (fun r => r / (n2 : ℚ)) else some 0⟩, ?_⟩
  unfold get_executive_summary
  rw [h1, h2, h3, h4]
  rfl

/-- The report never raises provided the inventory-status query itself
executed (its table may still have zero rows). -/
theorem generate_report_ok (s : Session) (now : String) (hc : s.connected = true)
    (hf : s.queryFails .inventoryStatus = false) :
    ∃ lines, generate_detailed_report s now = .ok lines := by
  obtain ⟨sm, hsm⟩ := get_executive_summary_ok s
  obtain ⟨Ls, hLs, _⟩ := salesSection_ok s
  obtain ⟨Lc, hLc⟩ := criticalSection_ok_of s hc hf
  obtain ⟨Lr, hLr, _⟩ := regionalSection_ok s
  refine ⟨headerLines now ++ summaryLines sm ++ Ls ++ Lc ++ Lr ++ [sep80], ?_⟩
  unfold generate_detailed_report
  rw [hsm, hLs, hLc, hLr]
  rfl

theorem panelStep_ok {guard target : DataFrame} {names : List String}
    (h : guard.pdEmpty = false → requireCols target names = .ok ()) :
    panelStep guard target names = .ok () := by
  unfold panelStep
  by_cases hg : guard.pdEmpty = false
  · simp [hg, h hg]
  · simp [hg, pure, Except.pure]

theorem panel_plain_ok (s : Session) (q : QueryId) (names : List String)
    (hn : ∀ n ∈ names, n ∈ (evalQuery s.db q).cols) :
    panelStep (runCatalogQuery s q) (runCatalogQuery s q) names = .ok () := by
  apply panelStep_ok
  intro hg
  rcases runCatalogQuery_cases s q with h | h
  · rw [h] at hg; simp [emptyDataFrame, DataFrame.pdEmpty] at hg
  · rw [h]; exact requireCols_ok hn

theorem panel_head_ok (s : Session) (q : QueryId) (k : ℕ) (names : List String)
    (hn : ∀ n ∈ names, n ∈ (evalQuery s.db q).cols) :
    panelStep ((runCatalogQuery s q).head k) ((runCatalogQuery s q).head k) names =
      .ok () := by
  apply panelStep_ok
  intro hg
  rcases runCatalogQuery_cases s q with h | h
  · rw [h] at hg; simp [emptyDataFrame, DataFrame.head, DataFrame.pdEmpty] at hg
  · rw [h]; exact requireCols_ok hn

theorem panel_guard_head_ok (s : Session) (q : QueryId) (k : ℕ) (names : List String)
    (hn : ∀ n ∈ names, n ∈ (evalQuery s.db q).cols) :
    panelStep (runCatalogQuery s q) ((runCatalogQuery s q).head k) names = .ok () := by
  apply panelStep_ok
  intro hg
  rcases runCatalogQuery_cases s q with h | h
  · rw [h] at hg; simp [emptyDataFrame, DataFrame.pdEmpty] at hg
  · rw [h]; exact requireCols_ok hn

/-- The dashboard's guarded column selections and its summary panel
never raise, for every session state. -/
theorem create_dashboard_ok (s : Session) :
    ∃ sm, create_comprehensive_dashboard s = .ok sm := by
  obtain ⟨sm, hsm⟩ := get_executive_summary_ok s
  have p1 := panel_head_ok s .salesPerf 8 ["Representative_Name", "Total_Sales"]
    (by intro n hn
        rw [show (evalQuery s.db .salesPerf).cols = salesCols from rfl]
        fin_cases hn <;> decide)
  have p2 := panel_plain_ok s .regionalPerf ["Total_Revenue", "Region_Name"]
    (by intro n hn
        rw [show (evalQuery s.db .regionalPerf).cols = regionalCols from rfl]
        fin_cases hn <;> decide)
  have p3 := panel_plain_ok s .inventoryStatus ["Stock_Status"]
    (by intro n hn
        rw [show (evalQuery s.db .inventoryStatus).cols = inventoryCols from rfl]
        fin_cases hn
        decide)
  have p4 := panel_plain_ok s .customerSegments ["Customer_Type", "Total_Revenue"]
    (by intro n hn
        rw [show (evalQuery s.db .customerSegments).cols = segmentCols from rfl]
        fin_cases hn <;> decide)
  have p5 := panel_plain_ok s .productPerf ["Category", "Total_Revenue"]
    (by intro n hn
        rw [show (evalQuery s.db .productPerf).cols = productCols from rfl]
        fin_cases hn <;> decide)
  have p6 := panel_guard_head_ok s .productPerf 6 ["Total_Revenue", "Product_Name"]
    (by intro n hn
        rw [show (evalQuery s.db .productPerf).cols = productCols from rfl]
        fin_cases hn <;> decide)
  have p7 := panel_head_ok s .salesPerf 8 ["Performance_Rating", "Total_Sales"]
    (by intro n hn
        rw [show (evalQuery s.db .salesPerf).cols = salesCols from rfl]
        fin_cases hn <;> decide)
  refine ⟨sm, ?_⟩
  simp only [create_comprehensive_dashboard, analyze_sales_performance,
    analyze_regional_performance, analyze_inventory_status, analyze_customer_segments,
    analyze_product_performance]
  rw [p1, p2, p3, p4, p5, p6, p7, hsm]
  rfl

/-- C2 counterexample: on a session that never connected, every metric
query returns the column-less empty table, and `generate_detailed_report`
raises `KeyError` at line 471 (`inventory_data['Stock_Status']` is
selected before any emptiness check) — refuting "every downstream
consumer degrades gracefully and never raises". -/
theorem report_keyerror_counterexample :
    generate_detailed_report sNoConn "" = .error "KeyError: Stock_Status" := rfl

/-- C2 amended: when some metric query returns an empty table, the
executive-summary arithmetic and every dashboard panel degrade
gracefully (zero values / skipped panels, never an exception), and the
report degrades gracefully **provided the inventory-status query itself
executed** (even with zero rows); if that query failed or the gateway is
not connected, `generate_detailed_report` raises a `KeyError` from the
unguarded `Stock_Status` column selection at line 471. -/
theorem fail_soft_downstream_amended :
    (∀ s : Session, ∃ sm, get_executive_summary s = .ok sm) ∧
    (∀ s : Session, ∃ sm, create_comprehensive_dashboard s = .ok sm) ∧
    (∀ (s : Session) (now : String), s.connected = true →
      s.queryFails .inventoryStatus = false →
      ∃ lines, generate_detailed_report s now = .ok lines) :=
  ⟨get_executive_summary_ok, create_dashboard_ok,
   fun s now hc hf => generate_report_ok s now hc hf⟩

theorem fail_soft_downstream_amended_witness :
    (∃ sm, get_executive_summary sNoConn = .ok sm) ∧
    (∃ sm, create_comprehensive_dashboard sNoConn = .ok sm) ∧
    ((goodSession emptyDB).connected = true ∧
      (goodSession emptyDB).queryFails .inventoryStatus = false ∧
      ∃ lines, generate_detailed_report (goodSession emptyDB) "" = .ok lines) :=
  ⟨fail_soft_downstream_amended.1 sNoConn,
   fail_soft_downstream_amended.2.1 sNoConn,
   rfl, rfl, fail_soft_downstream_amended.2.2 (goodSession emptyDB) "" rfl rfl⟩

/-! ## C8 — critical-alerts section omitted when nothing is critical -/

/-- C8: for every database state (healthy session), if the inventory
analysis has no rows classified CRITICAL or OUT_OF_STOCK — in
particular when it has no rows at all — the "CRITICAL INVENTORY ALERTS"
header appears nowhere in the report's lines (the section, header and
body, is entirely absent, since its body lines are emitted only under
the same guard). -/
theorem critical_section_omitted (db : DB) (now : String) (lines : List String)
    (hnone : ∀ row ∈ (analyze_inventory_status (goodSession db)).rows,
      ¬ (row.get? 7 = some (Cell.str "CRITICAL") ∨
         row.get? 7 = some (Cell.str "OUT_OF_STOCK")))
    (hok : generate_detailed_report (goodSession db) now = .ok lines) :
    "CRITICAL INVENTORY ALERTS" ∉ lines := by
  have hcrit : criticalSection (goodSession db) = .ok [] := criticalSection_empty hnone
  obtain ⟨sm, hsm⟩ := get_executive_summary_ok (goodSession db)
  obtain ⟨Ls, hLs, hLsP⟩ := salesSection_ok (goodSession db)
  obtain ⟨Lr, hLr, hLrP⟩ := regionalSection_ok (goodSession db)
  unfold generate_detailed_report at hok
  rw [hsm, hLs, hcrit, hLr] at hok
  simp only [Bind.bind, Except.bind, Except.ok.injEq] at hok
  intro hmem
  rw [← hok] at hmem
  simp only [List.append_nil, List.mem_append, List.mem_singleton] at hmem
  rcases hmem with (((hm | hm) | hm) | hm) | hm
  · exact header_notin_headerLines now hm
  · exact header_notin_summaryLines sm hm
  · exact hLsP _ hm rfl
  · exact hLrP _ hm rfl
  · exact absurd hm (by decide)

theorem critical_section_omitted_witness :
    (∀ row ∈ (analyze_inventory_status (goodSession emptyDB)).rows,
      ¬ (row.get? 7 = some (Cell.str "CRITICAL") ∨
         row.get? 7 = some (Cell.str "OUT_OF_STOCK"))) ∧
    generate_detailed_report (goodSession emptyDB) "" =
      .ok (headerLines "" ++ summaryLines ⟨none, 0, 0, none, some 0⟩ ++ [sep80]) ∧
    "CRITICAL INVENTORY ALERTS" ∉
      (headerLines "" ++ summaryLines ⟨none, 0, 0, none, some 0⟩ ++ [sep80]) := by
  have h1 : ∀ row ∈ (analyze_inventory_status (goodSession emptyDB)).rows,
      ¬ (row.get? 7 = some (Cell.str "CRITICAL") ∨
         row.get? 7 = some (Cell.str "OUT_OF_STOCK")) := by
    intro row hr
    rw [show (analyze_inventory_status (goodSession emptyDB)).rows = [] from rfl] at hr
    exact absurd hr (List.not_mem_nil row)
  have h2 : generate_detailed_report (goodSession emptyDB) "" =
      .ok (headerLines "" ++ summaryLines ⟨none, 0, 0, none, some 0⟩ ++ [sep80]) := rfl
  exact ⟨h1, h2, critical_section_omitted emptyDB "" _ h1 h2⟩

end PharmaAnalytics
